import Mathlib

/-!
Shallow embedding of `src/server.js` (coinglass-bot), the Telegraf-based
BTC liquidation threshold monitor.

Modelling conventions:
* JavaScript numbers are modelled as exact rationals (`ℚ`), taking each
  decimal literal at its face value; machine floating point is out of scope.
* `parseFloat(lastCandle.longLiquidationUsd || 0)` is modelled by
  `Option.getD _ 0`: an absent (or falsy-zero) field yields `0`.
* The network fetch, and the success of the Telegram dispatcher, are oracles
  passed to `checkLiquidations` as explicit arguments; the function returns
  the new global state, the messages handed to `sendTelegramAlert` (per side),
  and the retry it scheduled via `setTimeout`, if any.
* Node interval timers are modelled as a list of live timers plus the
  `intervalId` variable referencing the most recently installed one.
-/

/-- A character-list version of "`pat` occurs at the start of `hay`". -/
def leadMatch : List Char → List Char → Bool
  | [], _ => true
  | _ :: _, [] => false
  | c :: p, d :: h => c = d && leadMatch p h

/-- JS `String.prototype.includes`: `pat` occurs somewhere in `hay`. -/
def hasSub : List Char → List Char → Bool
  | pat, [] => leadMatch pat []
  | pat, d :: t => leadMatch pat (d :: t) || hasSub pat t

/-- The test `strContains s pat` models `s.includes(pat)`. -/
def strContains (s pat : String) : Bool :=
  hasSub pat.data s.data

/-- Insert en-US thousands separators into the decimal digits of `n`. -/
def commaGroupAux : List Char → List Char
  | a :: b :: c :: d :: rest => a :: b :: c :: ',' :: commaGroupAux (d :: rest)
  | l => l

/-- Render `n` in decimal with en-US thousands separators. -/
def commaGroup (n : ℕ) : String :=
  String.mk ((commaGroupAux (toString n).data.reverse).reverse)

/-- Render `m < 100` as exactly two digits. -/
def twoDigits (m : ℕ) : String :=
  if m < 10 then "0" ++ toString m else toString m

/-- JS `value.toLocaleString` with the en-US locale and a minimum and maximum
of two fraction digits, under exact decimal semantics: thousands separators
and exactly two fraction digits, rounding half away from zero. -/
def localeString2 (value : ℚ) : String :=
  let n : ℕ := ((|value| * 100 + 1 / 2).floor).toNat
  (if value < 0 then "-" else "") ++ commaGroup (n / 100) ++ "." ++ twoDigits (n % 100)

/-- The function `formatWithCommasAndDot` from `src/server.js` lines 29-34. -/
def formatWithCommasAndDot (value : ℚ) : String :=
  localeString2 value

/-- The function `truncToDecimals` from `src/server.js` lines 35-38:
`Math.floor(num * factor) / factor` with `factor = 10 ^ decimals`. -/
def truncToDecimals (num : ℚ) (decimals : ℕ) : ℚ :=
  let factor : ℚ := 10 ^ decimals
  ((num * factor).floor : ℚ) / factor

/-- JS `Number.prototype.toString` for a non-negative value that is an exact
multiple of `1/100`, given as `k` hundredths: trailing fractional zeros are
dropped (`6 ↦ "6"`, `7.25 ↦ "7.25"`, `2.3 ↦ "2.3"`, `2.05 ↦ "2.05"`). -/
def hundredthsToString (k : ℕ) : String :=
  let ip := k / 100
  let fr := k % 100
  if fr = 0 then toString ip
  else if fr % 10 = 0 then toString ip ++ "." ++ toString (fr / 10)
  else if fr < 10 then toString ip ++ ".0" ++ toString fr
  else toString ip ++ "." ++ toString fr

/-- Render a non-negative rational that is an exact multiple of `1/100`
the way JS `Number.prototype.toString` does. -/
def qToShortString (q : ℚ) : String :=
  hundredthsToString ((q * 100).floor).toNat

/-- The function `formatShortValue` from `src/server.js` lines 39-54. -/
def formatShortValue (value : ℚ) : String :=
  if value ≥ 1000000 then
    let millions := value / 1000000
    let truncated := truncToDecimals millions 2
    qToShortString truncated ++ "M"
  else if value ≥ 1000 then
    let thousands := value / 1000
    let truncated := thousands.floor
    toString truncated ++ "K"
  else
    localeString2 value

/-- The process-wide mutable monitor variables of `src/server.js` lines 13-23:
thresholds, polling period, SampleState (`lastLongLiq`, `lastShortLiq`) and
AlertMemory (`lastLongAlertValue`, `lastShortAlertValue`). -/
structure MonitorState where
  longThreshold : ℚ
  shortThreshold : ℚ
  pollingIntervalMs : ℚ
  lastLongLiq : ℚ
  lastShortLiq : ℚ
  lastLongAlertValue : Option ℚ
  lastShortAlertValue : Option ℚ

/-- The initial values of the monitor variables (`src/server.js` lines 13-23). -/
def initialMonitorState : MonitorState :=
  { longThreshold := 5000000
    shortThreshold := 10000000
    pollingIntervalMs := 60000
    lastLongLiq := 0
    lastShortLiq := 0
    lastLongAlertValue := none
    lastShortAlertValue := none }

/-- The most recent data point of the upstream response; `none` models an
absent (falsy) field, read as `0` via `parseFloat(... || 0)`. -/
structure Candle where
  longLiquidationUsd : Option ℚ
  shortLiquidationUsd : Option ℚ

/-- Outcome of the `axios.get` call in `checkLiquidations`: either a response
whose `data?.data` is the given optional list (absent modelled as `none`,
read as `[]` via `|| []`), or a thrown error carrying `error.code`. -/
inductive FetchOutcome where
  | ok (data : Option (List Candle))
  | err (code : String)

/-- Everything one invocation of `checkLiquidations` does: the final values of
the global variables, the messages passed to `sendTelegramAlert` for each
side (in order), and the retry scheduled via
`setTimeout(() => checkLiquidations(nextAttempt), 5000)`, recorded as
`(nextAttempt, delayMs)`, if any. -/
structure TickResult where
  state : MonitorState
  sentLong : List String
  sentShort : List String
  retry : Option (ℕ × ℕ)

/-- The LONG alert text built at `src/server.js` lines 118-123. -/
def longMessage (v : ℚ) : String :=
  "CG LONG Liquidations\n" ++
  "BTCUSDT.P Long Liquidations: $" ++ formatWithCommasAndDot v ++ "\n" ++
  "($" ++ formatShortValue v ++ ")\n\n" ++
  "© 2025 VORFX | All rights reserved."

/-- The SHORT alert text built at `src/server.js` lines 139-144. -/
def shortMessage (v : ℚ) : String :=
  "CG SHORT Liquidations\n" ++
  "BTCUSDT.P Short Liquidations: $" ++ formatWithCommasAndDot v ++ "\n" ++
  "($" ++ formatShortValue v ++ ")\n\n" ++
  "© 2025 VORFX | All rights reserved."

/-- JS strict equality `===` on two numbers; since `Rat` is kept normalized,
it is Boolean-valued structural equality on `num` and `den`. -/
def jsNumEq (a b : ℚ) : Bool :=
  a.num == b.num && a.den == b.den

/-- The inner dedup test of each alert block:
`lastAlertValue === null || newValue !== lastAlertValue`. -/
def isNewValue (memory : Option ℚ) (v : ℚ) : Bool :=
  match memory with
  | none => true
  | some m => !(jsNumEq v m)

/-- The alert block of one side in `checkLiquidations` (`src/server.js` lines
111-129 for LONG, 132-150 for SHORT): given the message builder of the side,
threshold, alert memory, freshly parsed value, and whether
`sendTelegramAlert` would succeed, return the new alert memory and the
message sent (if a dispatch was attempted). -/
def sideCheck (msg : ℚ → String) (threshold : ℚ) (memory : Option ℚ)
    (v : ℚ) (sendOk : Bool) : Option ℚ × List String :=
  if v > threshold then
    if isNewValue memory v then
      if sendOk then (some v, [msg v]) else (memory, [msg v])
    else (memory, [])
  else (memory, [])

/-- The function `checkLiquidations` from `src/server.js` lines 83-163, with the fetch
outcome and the dispatcher success per side supplied as oracles. -/
def checkLiquidations (retryCount : ℕ) (fetch : FetchOutcome)
    (longSendOk shortSendOk : Bool) (s : MonitorState) : TickResult :=
  match fetch with
  | .err code =>
    { state := s, sentLong := [], sentShort := [],
      retry :=
        if (code = "ECONNRESET" ∨ code = "ETIMEDOUT") ∧ retryCount < 3 then
          some (retryCount + 1, 5000)
        else none }
  | .ok odata =>
    match odata.getD [] with
    | [] => { state := s, sentLong := [], sentShort := [], retry := none }
    | lastCandle :: _ =>
      let longLiq := lastCandle.longLiquidationUsd.getD 0
      let shortLiq := lastCandle.shortLiquidationUsd.getD 0
      let s1 := { s with lastLongLiq := longLiq, lastShortLiq := shortLiq }
      let longRes :=
        sideCheck longMessage s1.longThreshold s1.lastLongAlertValue longLiq longSendOk
      let s2 := { s1 with lastLongAlertValue := longRes.1 }
      let shortRes :=
        sideCheck shortMessage s2.shortThreshold s2.lastShortAlertValue shortLiq shortSendOk
      let s3 := { s2 with lastShortAlertValue := shortRes.1 }
      { state := s3, sentLong := longRes.2, sentShort := shortRes.2, retry := none }

/-- A live Node interval timer, with the id returned by `setInterval` and
its period. -/
structure IntervalTimer where
  id : ℕ
  periodMs : ℚ

/-- The Node timer environment: the set of live interval timers, the
`intervalId` global (`src/server.js` line 26), and a counter supplying the
id of the next timer `setInterval` creates. -/
structure SchedulerState where
  intervalId : Option ℕ
  timers : List IntervalTimer
  nextTimerId : ℕ

/-- Full server state: monitor variables plus the timer environment. -/
structure ServerState where
  mon : MonitorState
  sched : SchedulerState

/-- The function `scheduleCheckLiquidations` from `src/server.js` lines 166-174:
`if (intervalId) clearInterval(intervalId)` then
`intervalId = setInterval(..., pollingIntervalMs)`. -/
def scheduleCheckLiquidations (s : ServerState) : ServerState :=
  let cleared :=
    match s.sched.intervalId with
    | some i => { s.sched with timers := s.sched.timers.filter (fun t => t.id ≠ i) }
    | none => s.sched
  { s with
    sched :=
      { intervalId := some cleared.nextTimerId
        timers := cleared.timers ++ [⟨cleared.nextTimerId, s.mon.pollingIntervalMs⟩]
        nextTimerId := cleared.nextTimerId + 1 } }

/-- HTTP response of the control endpoint. -/
inductive HttpResponse where
  | redirect (loc : String)

/-- The `POST /set-params` handler from `src/server.js` lines 215-228.
Each request-body field is modelled post-`parseFloat`: `some x` when the
field parses as the number `x`, `none` when it is absent or `NaN`. -/
def setParams (lt st pi : Option ℚ) (s : ServerState) : ServerState × HttpResponse :=
  let s1 :=
    match lt with
    | some x => { s with mon := { s.mon with longThreshold := x } }
    | none => s
  let s2 :=
    match st with
    | some x => { s1 with mon := { s1.mon with shortThreshold := x } }
    | none => s1
  let s3 :=
    match pi with
    | some p =>
      if p > 0 then
        scheduleCheckLiquidations
          { s2 with mon := { s2.mon with pollingIntervalMs := p * 1000 } }
      else s2
    | none => s2
  (s3, HttpResponse.redirect ("/"))

/-- The server state at process start, before the initial
`scheduleCheckLiquidations()` call (`src/server.js` lines 13-26). -/
def initialServerState : ServerState :=
  { mon := initialMonitorState
    sched := { intervalId := none, timers := [], nextTimerId := 0 } }

/-- The candle fetched in ticks 1 and 2 of the end-to-end scenario. -/
def candle6M : Candle := ⟨some 6000000, some 0⟩

/-- The candle fetched in tick 3 of the end-to-end scenario. -/
def candle7M25 : Candle := ⟨some 7250000, some 0⟩

/-- The monitor state after the first scenario tick: sample 6,000,000 / 0,
long AlertMemory 6,000,000. -/
def stateAfterTick1 : MonitorState :=
  { longThreshold := 5000000
    shortThreshold := 10000000
    pollingIntervalMs := 60000
    lastLongLiq := 6000000
    lastShortLiq := 0
    lastLongAlertValue := some 6000000
    lastShortAlertValue := none }

/-- The scheduler invariant: every live interval timer is the one the
`intervalId` variable refers to. It holds at start (no timers) and is
preserved by `scheduleCheckLiquidations`. -/
def WellFormedSched (sch : SchedulerState) : Prop :=
  ∀ t ∈ sch.timers, sch.intervalId = some t.id

lemma jsNumEq_iff {a b : ℚ} : jsNumEq a b = true ↔ a = b := by
  unfold jsNumEq
  constructor
  · intro h
    simp only [Bool.and_eq_true, beq_iff_eq] at h
    exact Rat.ext h.1 h.2
  · rintro rfl
    simp

lemma jsNumEq_eq_decide (a b : ℚ) : jsNumEq a b = decide (a = b) := by
  by_cases h : a = b
  · subst h
    simp [jsNumEq_iff.mpr rfl]
  · have hne : jsNumEq a b ≠ true := fun hb => h (jsNumEq_iff.mp hb)
    simp [h, Bool.eq_false_iff.mpr hne]

lemma isNewValue_iff (memory : Option ℚ) (v : ℚ) :
    isNewValue memory v = true ↔ (memory = none ∨ memory ≠ some v) := by
  cases memory with
  | none => simp [isNewValue]
  | some m =>
    by_cases h : v = m
    · subst h
      simp [isNewValue, jsNumEq_eq_decide]
    · simp [isNewValue, jsNumEq_eq_decide, h, Ne.symm h]

lemma sideCheck_sent_iff (msg : ℚ → String) (threshold : ℚ) (memory : Option ℚ)
    (v : ℚ) (sendOk : Bool) :
    (sideCheck msg threshold memory v sendOk).2 ≠ [] ↔
      v > threshold ∧ (memory = none ∨ memory ≠ some v) := by
  unfold sideCheck
  split
  next hth =>
    split
    next hnew =>
      cases sendOk <;> simp [hth, (isNewValue_iff memory v).mp hnew]
    next hnew =>
      have hcond := (isNewValue_iff memory v).not.mp hnew
      simp [hth, hcond]
  next hth =>
    simp [hth]

lemma sideCheck_sent_eq (msg : ℚ → String) (threshold : ℚ) (memory : Option ℚ)
    (v : ℚ) (sendOk : Bool) :
    (sideCheck msg threshold memory v sendOk).2 = [] ∨
      (sideCheck msg threshold memory v sendOk).2 = [msg v] := by
  unfold sideCheck
  split
  · split
    · cases sendOk <;> simp
    · simp
  · simp

lemma sideCheck_memory_sent (msg : ℚ → String) (threshold : ℚ) (memory : Option ℚ)
    (v : ℚ) (sendOk : Bool)
    (h : (sideCheck msg threshold memory v sendOk).2 ≠ []) :
    (sideCheck msg threshold memory v sendOk).1 =
      (if sendOk then some v else memory) := by
  unfold sideCheck at h ⊢
  split at h
  next hth =>
    split at h
    next hnew =>
      cases sendOk <;> simp_all
    next hnew =>
      simp at h
  next hth =>
    simp at h

lemma sideCheck_memory_skip (msg : ℚ → String) (threshold : ℚ) (memory : Option ℚ)
    (v : ℚ) (sendOk : Bool)
    (h : (sideCheck msg threshold memory v sendOk).2 = []) :
    (sideCheck msg threshold memory v sendOk).1 = memory := by
  unfold sideCheck at h ⊢
  split at h
  next hth =>
    split at h
    next hnew =>
      cases sendOk <;> simp_all
    next hnew =>
      simp [hth, hnew]
  next hth =>
    simp [hth]

lemma sideCheck_self_suppressed (msg : ℚ → String) (threshold : ℚ)
    (v : ℚ) (sendOk : Bool) :
    (sideCheck msg threshold (some v) v sendOk).2 = [] := by
  unfold sideCheck
  have hnew : isNewValue (some v) v = false := by
    simp [isNewValue, jsNumEq_eq_decide]
  simp [hnew]

lemma checkLiquidations_err (rc : ℕ) (code : String) (lOk sOk : Bool)
    (s : MonitorState) :
    checkLiquidations rc (.err code) lOk sOk s =
      { state := s, sentLong := [], sentShort := [],
        retry :=
          if (code = "ECONNRESET" ∨ code = "ETIMEDOUT") ∧ rc < 3 then
            some (rc + 1, 5000)
          else none } := rfl

lemma checkLiquidations_ok_cons (rc : ℕ) (c : Candle) (rest : List Candle)
    (lOk sOk : Bool) (s : MonitorState) :
    checkLiquidations rc (.ok (some (c :: rest))) lOk sOk s =
      { state :=
          { s with
            lastLongLiq := c.longLiquidationUsd.getD 0
            lastShortLiq := c.shortLiquidationUsd.getD 0
            lastLongAlertValue :=
              (sideCheck longMessage s.longThreshold s.lastLongAlertValue
                (c.longLiquidationUsd.getD 0) lOk).1
            lastShortAlertValue :=
              (sideCheck shortMessage s.shortThreshold s.lastShortAlertValue
                (c.shortLiquidationUsd.getD 0) sOk).1 }
        sentLong :=
          (sideCheck longMessage s.longThreshold s.lastLongAlertValue
            (c.longLiquidationUsd.getD 0) lOk).2
        sentShort :=
          (sideCheck shortMessage s.shortThreshold s.lastShortAlertValue
            (c.shortLiquidationUsd.getD 0) sOk).2
        retry := none } := rfl

lemma ok_cons_sentLong (rc : ℕ) (c : Candle) (rest : List Candle)
    (lOk sOk : Bool) (s : MonitorState) :
    (checkLiquidations rc (.ok (some (c :: rest))) lOk sOk s).sentLong =
      (sideCheck longMessage s.longThreshold s.lastLongAlertValue
        (c.longLiquidationUsd.getD 0) lOk).2 := rfl

lemma ok_cons_sentShort (rc : ℕ) (c : Candle) (rest : List Candle)
    (lOk sOk : Bool) (s : MonitorState) :
    (checkLiquidations rc (.ok (some (c :: rest))) lOk sOk s).sentShort =
      (sideCheck shortMessage s.shortThreshold s.lastShortAlertValue
        (c.shortLiquidationUsd.getD 0) sOk).2 := rfl

lemma ok_cons_state (rc : ℕ) (c : Candle) (rest : List Candle)
    (lOk sOk : Bool) (s : MonitorState) :
    (checkLiquidations rc (.ok (some (c :: rest))) lOk sOk s).state =
      { s with
        lastLongLiq := c.longLiquidationUsd.getD 0
        lastShortLiq := c.shortLiquidationUsd.getD 0
        lastLongAlertValue :=
          (sideCheck longMessage s.longThreshold s.lastLongAlertValue
            (c.longLiquidationUsd.getD 0) lOk).1
        lastShortAlertValue :=
          (sideCheck shortMessage s.shortThreshold s.lastShortAlertValue
            (c.shortLiquidationUsd.getD 0) sOk).1 } := rfl

/-- C1: on a tick with a successfully fetched sample, each side dispatches an
alert attempt iff its fetched value strictly exceeds the threshold of that
side and its last-alerted value is absent or differs from the fetched value; in
particular, after a successful first dispatch, a second tick fetching the same
long value dispatches nothing on the long side. -/
theorem checkLiquidations_dispatch_iff (s : MonitorState) (rc rc2 : ℕ)
    (c : Candle) (rest rest2 : List Candle) (lOk sOk lOk2 sOk2 : Bool) :
    ((checkLiquidations rc (.ok (some (c :: rest))) lOk sOk s).sentLong ≠ [] ↔
      c.longLiquidationUsd.getD 0 > s.longThreshold ∧
        (s.lastLongAlertValue = none ∨
          s.lastLongAlertValue ≠ some (c.longLiquidationUsd.getD 0))) ∧
    ((checkLiquidations rc (.ok (some (c :: rest))) lOk sOk s).sentShort ≠ [] ↔
      c.shortLiquidationUsd.getD 0 > s.shortThreshold ∧
        (s.lastShortAlertValue = none ∨
          s.lastShortAlertValue ≠ some (c.shortLiquidationUsd.getD 0))) ∧
    (lOk = true →
      (checkLiquidations rc2 (.ok (some (c :: rest2))) lOk2 sOk2
        (checkLiquidations rc (.ok (some (c :: rest))) lOk sOk s).state).sentLong
        = []) := by
  set v := c.longLiquidationUsd.getD 0 with hv
  refine ⟨?_, ?_, ?_⟩
  · rw [ok_cons_sentLong]
    exact sideCheck_sent_iff longMessage s.longThreshold s.lastLongAlertValue v lOk
  · rw [ok_cons_sentShort]
    exact sideCheck_sent_iff shortMessage s.shortThreshold s.lastShortAlertValue _ sOk
  · intro hl
    subst hl
    rw [ok_cons_sentLong, ok_cons_state]
    by_cases hsent :
        (sideCheck longMessage s.longThreshold s.lastLongAlertValue v true).2 = []
    · have hmem := sideCheck_memory_skip _ _ _ _ _ hsent
      show (sideCheck longMessage s.longThreshold
        (sideCheck longMessage s.longThreshold s.lastLongAlertValue v true).1 v lOk2).2 = []
      rw [hmem]
      by_contra hne
      have hp := (sideCheck_sent_iff longMessage s.longThreshold
        s.lastLongAlertValue v lOk2).mp hne
      have hnp : ¬(v > s.longThreshold ∧
          (s.lastLongAlertValue = none ∨ s.lastLongAlertValue ≠ some v)) :=
        (sideCheck_sent_iff longMessage s.longThreshold
          s.lastLongAlertValue v true).not.mp (fun hx => hx hsent)
      exact hnp hp
    · have hmem := sideCheck_memory_sent _ _ _ _ _ hsent
      show (sideCheck longMessage s.longThreshold
        (sideCheck longMessage s.longThreshold s.lastLongAlertValue v true).1 v lOk2).2 = []
      rw [hmem]
      simp only [if_pos rfl]
      exact sideCheck_self_suppressed _ _ _ _

/-- C2: on a tick where a side triggers a dispatch attempt, the corresponding
AlertMemory is set to the dispatched value exactly when the dispatcher
succeeds, and is left unchanged when dispatch fails; hence the same
triggering value re-attempts dispatch on the next tick after a failure. -/
theorem checkLiquidations_memory_update (s : MonitorState) (rc rc2 : ℕ)
    (c : Candle) (rest rest2 : List Candle) (lOk sOk lOk2 sOk2 : Bool) :
    ((checkLiquidations rc (.ok (some (c :: rest))) lOk sOk s).sentLong ≠ [] →
      (checkLiquidations rc (.ok (some (c :: rest))) lOk sOk s).state.lastLongAlertValue
        = (if lOk then some (c.longLiquidationUsd.getD 0) else s.lastLongAlertValue)) ∧
    ((checkLiquidations rc (.ok (some (c :: rest))) lOk sOk s).sentLong = [] →
      (checkLiquidations rc (.ok (some (c :: rest))) lOk sOk s).state.lastLongAlertValue
        = s.lastLongAlertValue) ∧
    ((checkLiquidations rc (.ok (some (c :: rest))) lOk sOk s).sentShort ≠ [] →
      (checkLiquidations rc (.ok (some (c :: rest))) lOk sOk s).state.lastShortAlertValue
        = (if sOk then some (c.shortLiquidationUsd.getD 0) else s.lastShortAlertValue)) ∧
    ((checkLiquidations rc (.ok (some (c :: rest))) lOk sOk s).sentShort = [] →
      (checkLiquidations rc (.ok (some (c :: rest))) lOk sOk s).state.lastShortAlertValue
        = s.lastShortAlertValue) ∧
    (lOk = false →
      (checkLiquidations rc (.ok (some (c :: rest))) lOk sOk s).sentLong ≠ [] →
      (checkLiquidations rc2 (.ok (some (c :: rest2))) lOk2 sOk2
        (checkLiquidations rc (.ok (some (c :: rest))) lOk sOk s).state).sentLong
        ≠ []) := by
  set v := c.longLiquidationUsd.getD 0 with hv
  set w := c.shortLiquidationUsd.getD 0 with hw
  refine ⟨?_, ?_, ?_, ?_, ?_⟩
  · intro hne
    rw [ok_cons_sentLong] at hne
    rw [ok_cons_state]
    exact sideCheck_memory_sent _ _ _ _ _ hne
  · intro heq
    rw [ok_cons_sentLong] at heq
    rw [ok_cons_state]
    exact sideCheck_memory_skip _ _ _ _ _ heq
  · intro hne
    rw [ok_cons_sentShort] at hne
    rw [ok_cons_state]
    exact sideCheck_memory_sent _ _ _ _ _ hne
  · intro heq
    rw [ok_cons_sentShort] at heq
    rw [ok_cons_state]
    exact sideCheck_memory_skip _ _ _ _ _ heq
  · intro hl hne
    subst hl
    rw [ok_cons_sentLong] at hne
    have hp := (sideCheck_sent_iff longMessage s.longThreshold
      s.lastLongAlertValue v false).mp hne
    have hmem := sideCheck_memory_sent longMessage s.longThreshold
      s.lastLongAlertValue v false hne
    rw [ok_cons_sentLong, ok_cons_state]
    show (sideCheck longMessage s.longThreshold
      (sideCheck longMessage s.longThreshold s.lastLongAlertValue v false).1 v lOk2).2 ≠ []
    rw [hmem]
    simp only [Bool.false_eq_true, if_false]
    exact (sideCheck_sent_iff longMessage s.longThreshold
      s.lastLongAlertValue v lOk2).mpr hp

/-- C5: a retry is scheduled iff the failure is transient (`ECONNRESET` or
`ETIMEDOUT`) and the retry count is below 3, with exactly one retry after a
5000 ms delay and the count incremented; a run of consecutive transient
failures starting at count 0 schedules retries 1, 2, 3 and the 4th failure
schedules none. -/
theorem checkLiquidations_retry_policy (s : MonitorState) (rc : ℕ) (code : String)
    (lOk sOk : Bool) :
    ((checkLiquidations rc (.err code) lOk sOk s).retry = some (rc + 1, 5000) ↔
      (code = "ECONNRESET" ∨ code = "ETIMEDOUT") ∧ rc < 3) ∧
    ((checkLiquidations rc (.err code) lOk sOk s).retry = none ↔
      ¬((code = "ECONNRESET" ∨ code = "ETIMEDOUT") ∧ rc < 3)) ∧
    (code = "ECONNRESET" ∨ code = "ETIMEDOUT" →
      (checkLiquidations 0 (.err code) lOk sOk s).retry = some (1, 5000) ∧
      (checkLiquidations 1 (.err code) lOk sOk
        (checkLiquidations 0 (.err code) lOk sOk s).state).retry = some (2, 5000) ∧
      (checkLiquidations 2 (.err code) lOk sOk
        (checkLiquidations 1 (.err code) lOk sOk
          (checkLiquidations 0 (.err code) lOk sOk s).state).state).retry
        = some (3, 5000) ∧
      (checkLiquidations 3 (.err code) lOk sOk
        (checkLiquidations 2 (.err code) lOk sOk
          (checkLiquidations 1 (.err code) lOk sOk
            (checkLiquidations 0 (.err code) lOk sOk s).state).state).state).retry
        = none) := by
  refine ⟨?_, ?_, ?_⟩
  · rw [checkLiquidations_err]
    by_cases hcond : (code = "ECONNRESET" ∨ code = "ETIMEDOUT") ∧ rc < 3 <;>
      simp [hcond]
  · rw [checkLiquidations_err]
    by_cases hcond : (code = "ECONNRESET" ∨ code = "ETIMEDOUT") ∧ rc < 3 <;>
      simp [hcond]
  · intro hcode
    refine ⟨?_, ?_, ?_, ?_⟩ <;> simp [checkLiquidations_err, hcode]

/-- C5 witness: a first transient timeout failure schedules a retry with
attempt 1 after 5000 ms, and the failure of the third retry schedules none. -/
theorem checkLiquidations_retry_policy_witness :
    (checkLiquidations 0 (.err ("ETIMEDOUT")) true true initialMonitorState).retry
      = some (1, 5000) ∧
    (checkLiquidations 3 (.err ("ETIMEDOUT")) true true
      (checkLiquidations 2 (.err ("ETIMEDOUT")) true true
        (checkLiquidations 1 (.err ("ETIMEDOUT")) true true
          (checkLiquidations 0 (.err ("ETIMEDOUT")) true true
            initialMonitorState).state).state).state).retry = none := by
  have h := (checkLiquidations_retry_policy initialMonitorState 0 "ETIMEDOUT"
    true true).2.2 (Or.inr rfl)
  exact ⟨h.1, h.2.2.2⟩

/-- C6: a tick whose fetch fails leaves the entire monitor state unchanged and
dispatches nothing; on a successful fetch, SampleState is overwritten wholesale
with the parsed candle values (independently of what edge detection then
does). -/
theorem checkLiquidations_failure_noop (s : MonitorState) (rc : ℕ) (code : String)
    (lOk sOk : Bool) (c : Candle) (rest : List Candle) :
    ((checkLiquidations rc (.err code) lOk sOk s).state = s ∧
     (checkLiquidations rc (.err code) lOk sOk s).sentLong = [] ∧
     (checkLiquidations rc (.err code) lOk sOk s).sentShort = []) ∧
    ((checkLiquidations rc (.ok (some (c :: rest))) lOk sOk s).state.lastLongLiq
        = c.longLiquidationUsd.getD 0 ∧
     (checkLiquidations rc (.ok (some (c :: rest))) lOk sOk s).state.lastShortLiq
        = c.shortLiquidationUsd.getD 0) :=
  ⟨⟨rfl, rfl, rfl⟩, rfl, rfl⟩

/-- C9: a successful request whose `data` array is absent or empty is a
complete no-op: state unchanged, nothing dispatched, no retry scheduled. -/
theorem checkLiquidations_empty_noop (s : MonitorState) (rc : ℕ) (lOk sOk : Bool) :
    checkLiquidations rc (.ok none) lOk sOk s =
      { state := s, sentLong := [], sentShort := [], retry := none } ∧
    checkLiquidations rc (.ok (some [])) lOk sOk s =
      { state := s, sentLong := [], sentShort := [], retry := none } :=
  ⟨rfl, rfl⟩

/-- C7: `POST /set-params` updates each threshold field that parses as a
number, updates the polling period (seconds converted to milliseconds) and
reinstalls the schedule only for a parsed value strictly greater than 0,
silently ignores absent/non-numeric fields and non-positive poll intervals,
and responds with a redirect to `/`. -/
theorem setParams_spec (s : ServerState) (lt st pi : Option ℚ) :
    ((setParams lt st pi s).1.mon.longThreshold = lt.getD s.mon.longThreshold) ∧
    ((setParams lt st pi s).1.mon.shortThreshold = st.getD s.mon.shortThreshold) ∧
    ((setParams lt st pi s).2 = HttpResponse.redirect ("/")) ∧
    (pi = none →
      (setParams lt st pi s).1.mon.pollingIntervalMs = s.mon.pollingIntervalMs ∧
      (setParams lt st pi s).1.sched = s.sched) ∧
    (∀ p : ℚ, pi = some p → ¬p > 0 →
      (setParams lt st pi s).1.mon.pollingIntervalMs = s.mon.pollingIntervalMs ∧
      (setParams lt st pi s).1.sched = s.sched) ∧
    (∀ p : ℚ, pi = some p → p > 0 →
      (setParams lt st pi s).1.mon.pollingIntervalMs = p * 1000 ∧
      (setParams lt st pi s).1 =
        scheduleCheckLiquidations
          { s with mon := { s.mon with
              longThreshold := lt.getD s.mon.longThreshold
              shortThreshold := st.getD s.mon.shortThreshold
              pollingIntervalMs := p * 1000 } }) := by
  rcases lt with _ | x <;> rcases st with _ | y <;> rcases pi with _ | p <;>
    simp [setParams] <;>
    by_cases hp : p > 0 <;>
    simp [hp, scheduleCheckLiquidations]

/-- C7 witness: a request setting the long threshold to 7,000,000 and the poll
interval to 30 s updates those fields and rebuilds the schedule. -/
theorem setParams_spec_witness :
    (setParams (some 7000000) none (some 30) initialServerState).1.mon.longThreshold
      = 7000000 ∧
    (setParams (some 7000000) none (some 30) initialServerState).1.mon.pollingIntervalMs
      = 30 * 1000 ∧
    (setParams (some 7000000) none (some 30) initialServerState).2
      = HttpResponse.redirect ("/") := by
  have h := setParams_spec initialServerState (some 7000000) none (some 30)
  exact ⟨by simpa using h.1, (h.2.2.2.2.2 30 rfl (by norm_num)).1, h.2.2.1⟩

/-- C10: `POST /set-params` never modifies SampleState or AlertMemory, for any
request body: only the thresholds and the polling period can change. -/
theorem setParams_frame (s : ServerState) (lt st pi : Option ℚ) :
    (setParams lt st pi s).1.mon.lastLongLiq = s.mon.lastLongLiq ∧
    (setParams lt st pi s).1.mon.lastShortLiq = s.mon.lastShortLiq ∧
    (setParams lt st pi s).1.mon.lastLongAlertValue = s.mon.lastLongAlertValue ∧
    (setParams lt st pi s).1.mon.lastShortAlertValue = s.mon.lastShortAlertValue := by
  rcases lt with _ | x <;> rcases st with _ | y <;> rcases pi with _ | p <;>
    simp [setParams, scheduleCheckLiquidations] <;>
    by_cases hp : p > 0 <;>
    simp [hp, scheduleCheckLiquidations]

lemma scheduleCheckLiquidations_mon (s : ServerState) :
    (scheduleCheckLiquidations s).mon = s.mon := rfl

lemma scheduleCheckLiquidations_sched (s : ServerState) (h : WellFormedSched s.sched) :
    (scheduleCheckLiquidations s).sched =
      { intervalId := some s.sched.nextTimerId
        timers := [⟨s.sched.nextTimerId, s.mon.pollingIntervalMs⟩]
        nextTimerId := s.sched.nextTimerId + 1 } := by
  unfold scheduleCheckLiquidations
  cases hI : s.sched.intervalId with
  | none =>
    have hnil : s.sched.timers = [] := by
      cases ht : s.sched.timers with
      | nil => rfl
      | cons t ts =>
        have := h t (by rw [ht]; exact List.mem_cons_self t ts)
        rw [hI] at this
        cases this
    simp [hnil]
  | some i =>
    have hfil : s.sched.timers.filter (fun t => t.id ≠ i) = [] := by
      rw [List.filter_eq_nil_iff]
      intro t ht
      have := h t ht
      rw [hI] at this
      have hid : t.id = i := (Option.some_injective _ this).symm
      simp [hid]
    simp [hfil]
    intro a ha
    have := h a ha
    rw [hI] at this
    exact (Option.some_injective _ this).symm

/-- C8: `scheduleCheckLiquidations` cancels the referenced active timer (if
any) before installing a new one at the current period, so under the scheduler
invariant exactly one timer is live afterwards, monitor state is untouched,
the invariant is preserved, and a second call at the same period again leaves
exactly one live timer at that period. -/
theorem scheduleCheckLiquidations_single_timer (s : ServerState)
    (h : WellFormedSched s.sched) :
    ((scheduleCheckLiquidations s).sched.timers =
      [⟨s.sched.nextTimerId, s.mon.pollingIntervalMs⟩]) ∧
    ((scheduleCheckLiquidations s).sched.intervalId = some s.sched.nextTimerId) ∧
    ((scheduleCheckLiquidations s).mon = s.mon) ∧
    WellFormedSched (scheduleCheckLiquidations s).sched ∧
    ((scheduleCheckLiquidations (scheduleCheckLiquidations s)).sched.timers.length = 1 ∧
      (∀ t ∈ (scheduleCheckLiquidations (scheduleCheckLiquidations s)).sched.timers,
        t.periodMs = s.mon.pollingIntervalMs) ∧
      (scheduleCheckLiquidations (scheduleCheckLiquidations s)).mon = s.mon) := by
  have h1 := scheduleCheckLiquidations_sched s h
  have hwf : WellFormedSched (scheduleCheckLiquidations s).sched := by
    rw [h1]
    intro t ht
    simp at ht
    rw [ht]
  have h2 := scheduleCheckLiquidations_sched (scheduleCheckLiquidations s) hwf
  refine ⟨by rw [h1], by rw [h1], rfl, hwf, ?_, ?_, rfl⟩
  · rw [h2]
    rfl
  · intro t ht
    rw [h2] at ht
    simp at ht
    rw [ht]
    rfl

/-- C8 witness: at process start (no live timer), scheduling installs exactly
one timer at the 60,000 ms default period, and scheduling again still leaves
exactly one timer. -/
theorem scheduleCheckLiquidations_single_timer_witness :
    (scheduleCheckLiquidations initialServerState).sched.timers = [⟨0, 60000⟩] ∧
    (scheduleCheckLiquidations
      (scheduleCheckLiquidations initialServerState)).sched.timers.length = 1 := by
  have hwf : WellFormedSched initialServerState.sched := by
    intro t ht
    simp [initialServerState] at ht
  have h := scheduleCheckLiquidations_single_timer initialServerState hwf
  exact ⟨h.1, h.2.2.2.2.1⟩

lemma ratFloor_eq (q : ℚ) : q.floor = ⌊q⌋ := by
  rw [Rat.floor_def', Rat.floor_def]

lemma trunc_floor_back (m : ℚ) :
    (truncToDecimals m 2 * 100).floor = (m * 100).floor := by
  have h : truncToDecimals m 2 * 100 = (((m * 100).floor : ℤ) : ℚ) := by
    unfold truncToDecimals
    norm_num
  rw [h, ratFloor_eq, ratFloor_eq, Int.floor_intCast]

/-- C3: the compact formatter renders `v ≥ 1,000,000` as the millions quotient
truncated (floored, not rounded) to two decimals followed by `M`
(`2,345,678 ↦ "2.34M"`), `1,000 ≤ v < 1,000,000` as the thousands quotient
truncated to an integer followed by `K` (`15,999 ↦ "15K"`), and `v < 1,000`
with two fraction digits; `999.995` takes the `< 1000` branch even though its
two-decimal full-format rendering is `"1,000.00"`. -/
theorem formatShortValue_spec (v : ℚ) (h : 0 ≤ v) :
    (1000000 ≤ v →
      formatShortValue v = hundredthsToString ((v / 1000000 * 100).floor).toNat ++ "M") ∧
    (1000 ≤ v → v < 1000000 →
      formatShortValue v = toString (v / 1000).floor ++ "K") ∧
    (v < 1000 → formatShortValue v = localeString2 v) ∧
    formatShortValue 2345678 = "2.34M" ∧
    formatShortValue 15999 = "15K" ∧
    ((999995 : ℚ) / 1000 < 1000 ∧
      formatShortValue ((999995 : ℚ) / 1000) = localeString2 ((999995 : ℚ) / 1000) ∧
      formatWithCommasAndDot ((999995 : ℚ) / 1000) = "1,000.00") := by
  refine ⟨?_, ?_, ?_, ?_, ?_, ?_, ?_, ?_⟩
  · intro hge
    simp only [formatShortValue, ge_iff_le, if_pos hge, qToShortString]
    rw [trunc_floor_back]
  · intro hge hlt
    simp only [formatShortValue, ge_iff_le, if_neg (not_le.mpr hlt), if_pos hge]
  · intro hlt
    have h1 : ¬(1000000 : ℚ) ≤ v := not_le.mpr (lt_trans hlt (by norm_num))
    have h2 : ¬(1000 : ℚ) ≤ v := not_le.mpr hlt
    simp only [formatShortValue, ge_iff_le, if_neg h1, if_neg h2]
  · with_unfolding_all decide
  · with_unfolding_all decide
  · with_unfolding_all decide
  · with_unfolding_all decide
  · with_unfolding_all decide

/-- C3 witness: the compact formatter truncates 2,345,678 to "2.34M". -/
theorem formatShortValue_spec_witness : formatShortValue 2345678 = "2.34M" :=
  (formatShortValue_spec 2345678 (by norm_num)).2.2.2.1

/-- C4 counterexample: in the end-to-end scenario the first tick dispatches
exactly the long message for 6,000,000, and that message does not contain the
substring `6.0M` — `formatShortValue 6000000` is `"6M"`, so the claimed
`6.0M` content is wrong. -/
theorem scenario_first_message_lacks_6_0M :
    (checkLiquidations 0 (.ok (some [candle6M])) true true
      initialMonitorState).sentLong = [longMessage 6000000] ∧
    strContains (longMessage 6000000) "6.0M" = false :=
  ⟨by with_unfolding_all rfl, by with_unfolding_all rfl⟩

/-- C4 (amended): with long threshold 5,000,000 and absent AlertMemory, tick 1
fetching 6,000,000 dispatches exactly one long message containing
`6,000,000.00` and `6M` (not `6.0M`); tick 2 fetching 6,000,000 again
dispatches nothing; tick 3 fetching 7,250,000 dispatches exactly one message
containing `7,250,000.00` and `7.25M`. -/
theorem scenario_end_to_end :
    (checkLiquidations 0 (.ok (some [candle6M])) true true
      initialMonitorState).sentLong = [longMessage 6000000] ∧
    strContains (longMessage 6000000) "6,000,000.00" = true ∧
    strContains (longMessage 6000000) "6M" = true ∧
    (checkLiquidations 0 (.ok (some [candle6M])) true true
      initialMonitorState).sentShort = [] ∧
    (checkLiquidations 0 (.ok (some [candle6M])) true true
      (checkLiquidations 0 (.ok (some [candle6M])) true true
        initialMonitorState).state).sentLong = [] ∧
    (checkLiquidations 0 (.ok (some [candle6M])) true true
      (checkLiquidations 0 (.ok (some [candle6M])) true true
        initialMonitorState).state).sentShort = [] ∧
    (checkLiquidations 0 (.ok (some [candle7M25])) true true
      (checkLiquidations 0 (.ok (some [candle6M])) true true
        (checkLiquidations 0 (.ok (some [candle6M])) true true
          initialMonitorState).state).state).sentLong = [longMessage 7250000] ∧
    strContains (longMessage 7250000) "7,250,000.00" = true ∧
    strContains (longMessage 7250000) "7.25M" = true ∧
    (checkLiquidations 0 (.ok (some [candle7M25])) true true
      (checkLiquidations 0 (.ok (some [candle6M])) true true
        (checkLiquidations 0 (.ok (some [candle6M])) true true
          initialMonitorState).state).state).sentShort = [] := by
  have h1 : (checkLiquidations 0 (.ok (some [candle6M])) true true
      initialMonitorState).state = stateAfterTick1 := by
    with_unfolding_all rfl
  have h2 : (checkLiquidations 0 (.ok (some [candle6M])) true true
      stateAfterTick1).state = stateAfterTick1 := by
    with_unfolding_all rfl
  rw [h1, h2]
  refine ⟨?_, ?_, ?_, ?_, ?_, ?_, ?_, ?_, ?_, ?_⟩ <;> with_unfolding_all rfl

/-- C1 witness: after a successful first dispatch at 6,000,000, a second tick
fetching the same value dispatches nothing on the long side. -/
theorem checkLiquidations_dispatch_iff_witness :
    (checkLiquidations 1 (.ok (some [candle6M])) true true
      (checkLiquidations 0 (.ok (some [candle6M])) true true
        initialMonitorState).state).sentLong = [] :=
  (checkLiquidations_dispatch_iff initialMonitorState 0 1 candle6M [] []
    true true true true).2.2 rfl

/-- C2 witness: after a failed dispatch at 6,000,000, the same value triggers
another dispatch attempt on the next tick. -/
theorem checkLiquidations_memory_update_witness :
    (checkLiquidations 1 (.ok (some [candle6M])) false true
      (checkLiquidations 0 (.ok (some [candle6M])) false true
        initialMonitorState).state).sentLong ≠ [] := by
  have hev : (checkLiquidations 0 (.ok (some [candle6M])) false true
      initialMonitorState).sentLong = [longMessage 6000000] := by
    with_unfolding_all rfl
  have hne : (checkLiquidations 0 (.ok (some [candle6M])) false true
      initialMonitorState).sentLong ≠ [] := by
    rw [hev]
    simp
  exact (checkLiquidations_memory_update initialMonitorState 0 1 candle6M [] []
    false true false true).2.2.2.2 rfl hne
